import Mathlib

/-!
Verification of the SparkFun STP3593LF OCXO driver (`sfDevSTP3593LF.cpp` /
`SparkFun_STP3593LF.h`) against its specification.

Shallow embedding conventions:
* C++ `double` values are embedded as exact rationals (`ℚ`); the spec asks for
  the algorithm "bit-for-bit in semantics, not necessarily in floating-point
  rounding".
* C++ `uint32_t` values are embedded as `ℕ`, with an explicit reduction modulo
  `2 ^ 32` where a conversion could leave the 32-bit range.
* The I2C bus is a collaborator: each bus transaction's outcome is passed in as
  an explicit argument (`Option (List ℕ)` for a register read, where `none` is
  a failed transaction and `some bytes` a transaction returning those bytes;
  `Bool` for a write's success).
* The C function `round` rounds half away from zero (`cround` below).
* The cast `(uint32_t)round(P + I)` applies a float-to-unsigned conversion that
  C++ leaves undefined for negative values; it is embedded as reduction modulo
  `2 ^ 32` (`toUInt32Wrap`), which agrees with the defined behaviour on
  `[0, 2^32)`.
* `setFrequencyByBiasMillis` keeps its integrator in function-local `static`
  variables (`static double I; static bool initialized;`). In C++ those are
  one single program-wide cell shared by every instance of the class, so the
  embedding passes the statics (`SteerStatics`) separately from the per-object
  state (`DriverState`), and a two-instance world (`TwoDriverWorld`) threads
  the one statics cell through calls on either instance.
-/

/-- `kSfeSTP3593LFFreqControlMaxValue = 1000000`, the largest legal control word. -/
def kSfeSTP3593LFFreqControlMaxValue : ℕ := 1000000

/-- `kSfeSTP3593LFFreqControlResolution = 8e-13`, fractional frequency per LSB. -/
def kSfeSTP3593LFFreqControlResolution : ℚ := 8 / 10 ^ 13

/-- Per-object state of `sfDevSTP3593LF`: the cached control word
`_frequencyControl` and the configured `_maxFrequencyChangePPB`. -/
structure DriverState where
  frequencyControl : ℕ
  maxFrequencyChangePPB : ℚ
deriving DecidableEq

/-- The function-local statics of `setFrequencyByBiasMillis`:
`static double I; static bool initialized;` (the flag is called `initDone`
here). One single cell for the whole program, shared by all instances. -/
structure SteerStatics where
  I : ℚ
  initDone : Bool
deriving DecidableEq

/-- C `round`: round half away from zero. -/
def cround (x : ℚ) : ℤ := if 0 ≤ x then ⌊x + 1 / 2⌋ else ⌈x - 1 / 2⌉

/-- Conversion of the rounded double to `uint32_t`, embedded as reduction
modulo `2 ^ 32` (out-of-range conversions are undefined behaviour in C++;
this embedding agrees with the defined behaviour on `[0, 2^32)`). -/
def toUInt32Wrap (z : ℤ) : ℕ := (z % 2 ^ 32).toNat

/-- The MSB-first reassembly in `readFrequencyControlWord`:
`(b0 << 24) | (b1 << 16) | (b2 << 8) | (b3 << 0)`. -/
def decodeBE4 (b0 b1 b2 b3 : ℕ) : ℕ :=
  (b0 <<< 24) ||| (b1 <<< 16) ||| (b2 <<< 8) ||| (b3 <<< 0)

/-- Decode a received frame (the first four bytes of the buffer). -/
def decodeFrame (theBytes : List ℕ) : ℕ :=
  decodeBE4 (theBytes.getD 0 0) (theBytes.getD 1 0) (theBytes.getD 2 0)
    (theBytes.getD 3 0)

/-- `sfDevSTP3593LF::readFrequencyControlWord`. `busRead` is the outcome of
`readRegisterRegion(0x41, buf, 4, readBytes)`: `none` when the bus returns an
error, `some theBytes` when it succeeds having read `theBytes.length` bytes. -/
def readFrequencyControlWord (st : DriverState) (busRead : Option (List ℕ)) :
    Bool × DriverState :=
  match busRead with
  | none => (false, st)
  | some theBytes =>
    if theBytes.length ≠ 4 then (false, st)
    else
      let frequencyControl := decodeFrame theBytes
      if frequencyControl > kSfeSTP3593LFFreqControlMaxValue then (false, st)
      else (true, { st with frequencyControl := frequencyControl })

/-- `sfDevSTP3593LF::setFrequencyControlWord`. `writeOk` is the outcome of
`writeRegisterRegion(0xA0, theBytes, 4)`. Returns the result, the new state,
and the 4-byte frame handed to the bus. -/
def setFrequencyControlWord (st : DriverState) (freq : ℕ) (writeOk : Bool) :
    Bool × DriverState × List ℕ :=
  let f := if freq > kSfeSTP3593LFFreqControlMaxValue
    then kSfeSTP3593LFFreqControlMaxValue else freq
  let theBytes := [f / 2 ^ 24 % 256, f / 2 ^ 16 % 256, f / 2 ^ 8 % 256, f % 256]
  if writeOk then (true, { st with frequencyControl := f }, theBytes)
  else (false, st, theBytes)

/-- `sfDevSTP3593LF::begin`: ping, then read the control register twice.  The
third component counts how many `readRegisterRegion` transactions were issued. -/
def begin (st : DriverState) (ping : Bool) (r1 r2 : Option (List ℕ)) :
    Bool × DriverState × ℕ :=
  if ping then
    match readFrequencyControlWord st r1 with
    | (true, st1) =>
      match readFrequencyControlWord st1 r2 with
      | (ok2, st2) => (ok2, st2, 2)
    | (false, st1) => (false, st1, 1)
  else (false, st, 0)

/-- `error = (0.0 - bias) / 1000.0`: bias (ms) to error (s), setpoint zero. -/
def errorSeconds (bias : ℚ) : ℚ := (0 - bias) / 1000

/-- `requiredChangeInLSBs = error / kSfeSTP3593LFFreqControlResolution`. -/
def requiredChangeInLSBs (bias : ℚ) : ℚ :=
  errorSeconds bias / kSfeSTP3593LFFreqControlResolution

/-- `maxChangeInLSBs = _maxFrequencyChangePPB * 1.0e-9 / resolution`. -/
def maxChangeInLSBs (maxPPB : ℚ) : ℚ :=
  maxPPB * (1 / 10 ^ 9) / kSfeSTP3593LFFreqControlResolution

/-- The two-sided limiter applied to `requiredChangeInLSBs`. -/
def clampChange (req maxC : ℚ) : ℚ :=
  if 0 ≤ req then (if req > maxC then maxC else req)
  else (if req < 0 - maxC then 0 - maxC else req)

/-- Value of the integrator after the lazy initialization at the top of
`setFrequencyByBiasMillis`: seeded from the cached control word on the very
first call of the program. -/
def integratorSeed (st : DriverState) (ss : SteerStatics) : ℚ :=
  if ss.initDone then ss.I else (st.frequencyControl : ℚ)

/-- `sfDevSTP3593LF::setFrequencyByBiasMillis`.  Returns the result, the new
per-object state, and the new statics cell. -/
def setFrequencyByBiasMillis (st : DriverState) (ss : SteerStatics)
    (bias Pk Ik : ℚ) (writeOk : Bool) : Bool × DriverState × SteerStatics :=
  let I0 := integratorSeed st ss
  let req := clampChange (requiredChangeInLSBs bias)
    (maxChangeInLSBs st.maxFrequencyChangePPB)
  let P := req * Pk
  let dI := req * Ik
  let Inew := I0 + dI
  let newWord := toUInt32Wrap (cround (P + Inew))
  let r := setFrequencyControlWord st newWord writeOk
  (r.1, r.2.1, ⟨Inew, true⟩)

/-- A program holding two driver instances.  `statics` is the single
program-wide cell backing the function-local statics of
`setFrequencyByBiasMillis`, shared by both instances. -/
structure TwoDriverWorld where
  devA : DriverState
  devB : DriverState
  statics : SteerStatics
deriving DecidableEq

/-- `setFrequencyByBiasMillis` invoked on instance A of a two-instance
program: updates A's object state and the shared statics. -/
def steerA (w : TwoDriverWorld) (bias Pk Ik : ℚ) (writeOk : Bool) :
    Bool × TwoDriverWorld :=
  let r := setFrequencyByBiasMillis w.devA w.statics bias Pk Ik writeOk
  (r.1, { w with devA := r.2.1, statics := r.2.2 })

/-- `setFrequencyByBiasMillis` invoked on instance B of a two-instance
program: updates B's object state and the shared statics. -/
def steerB (w : TwoDriverWorld) (bias Pk Ik : ℚ) (writeOk : Bool) :
    Bool × TwoDriverWorld :=
  let r := setFrequencyByBiasMillis w.devB w.statics bias Pk Ik writeOk
  (r.1, { w with devB := r.2.1, statics := r.2.2 })

/-! ### Helper lemmas -/

lemma cround_natCast (n : ℕ) : cround ((n : ℚ)) = n := by
  unfold cround
  rw [if_pos (by positivity)]
  rw [show ((n : ℚ) + 1 / 2) = ((n : ℤ) : ℚ) + 1 / 2 by push_cast; ring,
    Int.floor_int_add]
  norm_num

lemma toUInt32Wrap_natCast (n : ℕ) (h : n < 2 ^ 32) : toUInt32Wrap (n : ℤ) = n := by
  unfold toUInt32Wrap
  omega

lemma decodeBE4_eq (b0 b1 b2 b3 : ℕ) (h1 : b1 < 256) (h2 : b2 < 256)
    (h3 : b3 < 256) :
    decodeBE4 b0 b1 b2 b3 = b0 * 2 ^ 24 + (b1 * 2 ^ 16 + (b2 * 2 ^ 8 + b3)) := by
  have e3 : b2 <<< 8 ||| b3 <<< 0 = 2 ^ 8 * b2 + b3 := by
    rw [Nat.shiftLeft_eq, Nat.shiftLeft_eq, pow_zero, mul_one, mul_comm b2,
      ← Nat.mul_add_lt_is_or (by omega) b2]
  have e2 : b1 <<< 16 ||| (2 ^ 8 * b2 + b3) = 2 ^ 16 * b1 + (2 ^ 8 * b2 + b3) := by
    rw [Nat.shiftLeft_eq, mul_comm b1, ← Nat.mul_add_lt_is_or (by omega) b1]
  have e1 : b0 <<< 24 ||| (2 ^ 16 * b1 + (2 ^ 8 * b2 + b3)) =
      2 ^ 24 * b0 + (2 ^ 16 * b1 + (2 ^ 8 * b2 + b3)) := by
    rw [Nat.shiftLeft_eq, mul_comm b0, ← Nat.mul_add_lt_is_or (by omega) b0]
  unfold decodeBE4
  rw [Nat.lor_assoc, Nat.lor_assoc, e3, e2, e1]
  ring

lemma maxChangeInLSBs_nonneg {maxPPB : ℚ} (h : 0 ≤ maxPPB) :
    0 ≤ maxChangeInLSBs maxPPB := by
  unfold maxChangeInLSBs kSfeSTP3593LFFreqControlResolution
  positivity

lemma readFCW_none (st : DriverState) :
    readFrequencyControlWord st none = (false, st) := rfl

lemma readFCW_short (st : DriverState) (bs : List ℕ) (h : bs.length ≠ 4) :
    readFrequencyControlWord st (some bs) = (false, st) := by
  simp [readFrequencyControlWord, h]

lemma readFCW_oor (st : DriverState) (bs : List ℕ) (h : bs.length = 4)
    (h2 : decodeFrame bs > kSfeSTP3593LFFreqControlMaxValue) :
    readFrequencyControlWord st (some bs) = (false, st) := by
  simp [readFrequencyControlWord, h, h2]

lemma readFCW_ok (st : DriverState) (bs : List ℕ) (h : bs.length = 4)
    (h2 : ¬ decodeFrame bs > kSfeSTP3593LFFreqControlMaxValue) :
    readFrequencyControlWord st (some bs) =
      (true, { st with frequencyControl := decodeFrame bs }) := by
  simp [readFrequencyControlWord, h, h2]

/-! ### Claim theorems -/

/-- C5: if the bus write fails during `setFrequencyByBiasMillis`, the call
returns failure and the cached control word (indeed the whole per-object
state) is unchanged, but the integrator is not rolled back: it keeps the
advance `clampedChange * Ik` added before the write was attempted, for every
bias, `Pk`, `Ik`, and every prior state. -/
theorem setFrequencyByBiasMillis_write_failure (st : DriverState)
    (ss : SteerStatics) (bias Pk Ik : ℚ) :
    setFrequencyByBiasMillis st ss bias Pk Ik false =
      (false, st,
        ⟨integratorSeed st ss +
          clampChange (requiredChangeInLSBs bias)
            (maxChangeInLSBs st.maxFrequencyChangePPB) * Ik, true⟩) := by
  rfl

/-- C6: `readFrequencyControlWord` returns failure and leaves the cached
control word unchanged when the bus read fails, when fewer than 4 bytes are
returned, or when the big-endian decoded value exceeds
`kSfeSTP3593LFFreqControlMaxValue = 1000000`; otherwise it returns success
and commits the decoded value to the cache. -/
theorem readFrequencyControlWord_characterization (st : DriverState)
    (busRead : Option (List ℕ)) :
    (busRead = none → readFrequencyControlWord st busRead = (false, st)) ∧
    (∀ bs, busRead = some bs → bs.length ≠ 4 →
      readFrequencyControlWord st busRead = (false, st)) ∧
    (∀ bs, busRead = some bs → bs.length = 4 →
      decodeFrame bs > kSfeSTP3593LFFreqControlMaxValue →
      readFrequencyControlWord st busRead = (false, st)) ∧
    (∀ bs, busRead = some bs → bs.length = 4 →
      decodeFrame bs ≤ kSfeSTP3593LFFreqControlMaxValue →
      readFrequencyControlWord st busRead =
        (true, { st with frequencyControl := decodeFrame bs })) := by
  refine ⟨?_, ?_, ?_, ?_⟩
  · rintro rfl; exact readFCW_none st
  · rintro bs rfl h; exact readFCW_short st bs h
  · rintro bs rfl h h2; exact readFCW_oor st bs h h2
  · rintro bs rfl h h2; exact readFCW_ok st bs h (by omega)

/-- C6 witness: a bus read returning only 3 bytes fails and leaves the cache
unchanged; a well-formed 4-byte frame decoding to 7 succeeds and commits 7. -/
theorem readFrequencyControlWord_characterization_witness :
    readFrequencyControlWord ⟨5, 400⟩ (some [1, 2, 3]) = (false, ⟨5, 400⟩) ∧
    readFrequencyControlWord ⟨5, 400⟩ (some [0, 0, 0, 7]) = (true, ⟨7, 400⟩) := by
  constructor
  · exact (readFrequencyControlWord_characterization ⟨5, 400⟩
      (some [1, 2, 3])).2.1 [1, 2, 3] rfl (by decide)
  · have h := (readFrequencyControlWord_characterization ⟨5, 400⟩
      (some [0, 0, 0, 7])).2.2.2 [0, 0, 0, 7] rfl (by decide) (by decide)
    simpa [show decodeFrame [0, 0, 0, 7] = 7 by decide] using h

lemma setFCW_fst (st : DriverState) (freq : ℕ) (writeOk : Bool) :
    (setFrequencyControlWord st freq writeOk).1 = writeOk := by
  simp only [setFrequencyControlWord]
  cases writeOk <;> rfl

lemma setFCW_frame (st : DriverState) (freq : ℕ) (writeOk : Bool) :
    (setFrequencyControlWord st freq writeOk).2.2 =
      [(if freq > kSfeSTP3593LFFreqControlMaxValue
          then kSfeSTP3593LFFreqControlMaxValue else freq) / 2 ^ 24 % 256,
       (if freq > kSfeSTP3593LFFreqControlMaxValue
          then kSfeSTP3593LFFreqControlMaxValue else freq) / 2 ^ 16 % 256,
       (if freq > kSfeSTP3593LFFreqControlMaxValue
          then kSfeSTP3593LFFreqControlMaxValue else freq) / 2 ^ 8 % 256,
       (if freq > kSfeSTP3593LFFreqControlMaxValue
          then kSfeSTP3593LFFreqControlMaxValue else freq) % 256] := by
  simp only [setFrequencyControlWord]
  cases writeOk <;> rfl

lemma setFCW_state_true (st : DriverState) (freq : ℕ) :
    (setFrequencyControlWord st freq true).2.1 =
      { st with frequencyControl := if freq > kSfeSTP3593LFFreqControlMaxValue
          then kSfeSTP3593LFFreqControlMaxValue else freq } := rfl

lemma setFCW_state_false (st : DriverState) (freq : ℕ) :
    (setFrequencyControlWord st freq false).2.1 = st := rfl

lemma decodeFrame_digits (f : ℕ) (h : f < 2 ^ 32) :
    decodeFrame [f / 2 ^ 24 % 256, f / 2 ^ 16 % 256, f / 2 ^ 8 % 256, f % 256] = f := by
  have e : decodeFrame [f / 2 ^ 24 % 256, f / 2 ^ 16 % 256, f / 2 ^ 8 % 256,
      f % 256] = decodeBE4 (f / 2 ^ 24 % 256) (f / 2 ^ 16 % 256)
      (f / 2 ^ 8 % 256) (f % 256) := rfl
  rw [e, decodeBE4_eq _ _ _ _ (Nat.mod_lt _ (by norm_num))
    (Nat.mod_lt _ (by norm_num)) (Nat.mod_lt _ (by norm_num))]
  omega

/-- C7: `setFrequencyControlWord` never fails on the encoding side — the call
result is exactly the bus write's outcome; the frame handed to the bus is 4
bytes, most-significant byte first, of the value clamped to
`kSfeSTP3593LFFreqControlMaxValue` (decoding the frame big-endian recovers the
clamped value); any value above the maximum produces the same call result,
frame and stored value as `1000000`; on a successful write the clamped value
is what gets stored. -/
theorem setFrequencyControlWord_encode_spec (st : DriverState) (freq : ℕ)
    (writeOk : Bool) :
    (setFrequencyControlWord st freq writeOk).1 = writeOk ∧
    ((setFrequencyControlWord st freq writeOk).2.2).length = 4 ∧
    (∀ b ∈ (setFrequencyControlWord st freq writeOk).2.2, b < 256) ∧
    decodeFrame ((setFrequencyControlWord st freq writeOk).2.2) =
      (if freq > kSfeSTP3593LFFreqControlMaxValue
        then kSfeSTP3593LFFreqControlMaxValue else freq) ∧
    (freq > kSfeSTP3593LFFreqControlMaxValue →
      setFrequencyControlWord st freq writeOk =
        setFrequencyControlWord st kSfeSTP3593LFFreqControlMaxValue writeOk) ∧
    (writeOk = true →
      (setFrequencyControlWord st freq writeOk).2.1.frequencyControl =
        (if freq > kSfeSTP3593LFFreqControlMaxValue
          then kSfeSTP3593LFFreqControlMaxValue else freq)) := by
  have hle : (if freq > kSfeSTP3593LFFreqControlMaxValue
      then kSfeSTP3593LFFreqControlMaxValue else freq) ≤ 1000000 := by
    unfold kSfeSTP3593LFFreqControlMaxValue
    split <;> omega
  refine ⟨setFCW_fst st freq writeOk, ?_, ?_, ?_, ?_, ?_⟩
  · rw [setFCW_frame]; rfl
  · rw [setFCW_frame]
    intro b hb
    simp only [List.mem_cons, List.not_mem_nil, or_false] at hb
    rcases hb with rfl | rfl | rfl | rfl <;> exact Nat.mod_lt _ (by norm_num)
  · rw [setFCW_frame, decodeFrame_digits _ (by omega)]
  · intro h
    simp only [setFrequencyControlWord, if_pos h, if_neg (lt_irrefl _)]
  · rintro rfl
    rw [setFCW_state_true]

/-- C7 witness: writing 1500000 (above the maximum) yields the same call
result as writing 1000000, and stores 1000000. -/
theorem setFrequencyControlWord_encode_spec_witness :
    setFrequencyControlWord ⟨0, 400⟩ 1500000 true =
      setFrequencyControlWord ⟨0, 400⟩ 1000000 true ∧
    (setFrequencyControlWord ⟨0, 400⟩ 1500000 true).2.1.frequencyControl =
      1000000 := by
  have h := setFrequencyControlWord_encode_spec ⟨0, 400⟩ 1500000 true
  refine ⟨h.2.2.2.2.1 (by decide), ?_⟩
  rw [h.2.2.2.2.2 rfl]
  decide

/-- C8: codec round trip — for every value, the 4-byte frame emitted by the
write path (clamp then emit big-endian) decodes back to
`min v 1000000 = clamp(v, 0, MAX_CONTROL)`, and feeding that frame to the
read path always succeeds (the decode-side range check never rejects an
encoded frame), committing the clamped value to the cache. -/
theorem codec_round_trip (st st' : DriverState) (v : ℕ) (writeOk : Bool) :
    decodeFrame ((setFrequencyControlWord st v writeOk).2.2) =
      min v kSfeSTP3593LFFreqControlMaxValue ∧
    readFrequencyControlWord st'
        (some ((setFrequencyControlWord st v writeOk).2.2)) =
      (true, { st' with
        frequencyControl := min v kSfeSTP3593LFFreqControlMaxValue }) := by
  have hmin : (if v > kSfeSTP3593LFFreqControlMaxValue
      then kSfeSTP3593LFFreqControlMaxValue else v) =
      min v kSfeSTP3593LFFreqControlMaxValue := by
    unfold kSfeSTP3593LFFreqControlMaxValue
    split <;> omega
  have hminle : min v kSfeSTP3593LFFreqControlMaxValue ≤ 1000000 := by
    unfold kSfeSTP3593LFFreqControlMaxValue
    omega
  have hdec : decodeFrame ((setFrequencyControlWord st v writeOk).2.2) =
      min v kSfeSTP3593LFFreqControlMaxValue := by
    rw [setFCW_frame, hmin, decodeFrame_digits _ (by omega)]
  refine ⟨hdec, ?_⟩
  rw [readFCW_ok st' _ (by rw [setFCW_frame]; rfl)
    (by rw [hdec]; unfold kSfeSTP3593LFFreqControlMaxValue at hminle ⊢; omega),
    hdec]

lemma readFCW_false_state (st : DriverState) (r : Option (List ℕ))
    (st2 : DriverState) (h : readFrequencyControlWord st r = (false, st2)) :
    st2 = st := by
  rcases r with - | bs
  · simp only [readFrequencyControlWord] at h
    injection h with h1 h2
    exact h2.symm
  · simp only [readFrequencyControlWord] at h
    split at h
    · injection h with h1 h2; exact h2.symm
    · split at h
      · injection h with h1 h2; exact h2.symm
      · injection h with h1 h2; cases h1

lemma readFCW_true_some (st st2 : DriverState) (bs : List ℕ)
    (h : readFrequencyControlWord st (some bs) = (true, st2)) :
    st2.frequencyControl = decodeFrame bs := by
  simp only [readFrequencyControlWord] at h
  split at h
  · injection h with h1 h2; cases h1
  · split at h
    · injection h with h1 h2; cases h1
    · injection h with h1 h2; rw [← h2]

/-- C4 counterexample: with cached control word 0, a successful ping, a first
read returning the 4-byte frame for 7, and a failing second read, `begin`
reports failure yet the cached control word has been updated to 7 by the
first read — refuting "if the second read fails, the cached control word is
not updated by the call" and "only the second read's decoded value is
committed". -/
theorem begin_first_read_commits_counterexample :
    begin ⟨0, 400⟩ true (some [0, 0, 0, 7]) none = (false, ⟨7, 400⟩, 2) := by
  decide

/-- C4 (amended): `begin` pings, then reads the control-word register up to
twice (exactly twice when the ping and the first read succeed, once when only
the ping succeeds, never when the ping fails); it reports success only if the
ping and both reads succeed; each successful read commits its decoded value,
so on success the final cache holds the second read's decoded value, and when
the second read fails the cache is whatever the first (successful) read
committed. -/
theorem begin_characterization (st : DriverState) (ping : Bool)
    (r1 r2 : Option (List ℕ)) :
    ((begin st ping r1 r2).1 = true ↔
      ping = true ∧ (readFrequencyControlWord st r1).1 = true ∧
        (readFrequencyControlWord (readFrequencyControlWord st r1).2 r2).1 = true) ∧
    (begin st ping r1 r2).2.2 =
      (if ping then (if (readFrequencyControlWord st r1).1 then 2 else 1) else 0) ∧
    ((begin st ping r1 r2).1 = true →
      (begin st ping r1 r2).2.1 =
        (readFrequencyControlWord (readFrequencyControlWord st r1).2 r2).2) ∧
    (∀ bs2, (begin st ping r1 r2).1 = true → r2 = some bs2 →
      (begin st ping r1 r2).2.1.frequencyControl = decodeFrame bs2) ∧
    (ping = true → (readFrequencyControlWord st r1).1 = true →
      (readFrequencyControlWord (readFrequencyControlWord st r1).2 r2).1 = false →
      (begin st ping r1 r2).2.1 = (readFrequencyControlWord st r1).2) := by
  cases ping with
  | false => simp [begin]
  | true =>
    rcases hr1 : readFrequencyControlWord st r1 with ⟨ok1, st1⟩
    rcases hr2 : readFrequencyControlWord st1 r2 with ⟨ok2, st2⟩
    cases ok1 with
    | false => simp [begin, hr1]
    | true =>
      cases ok2 with
      | false =>
        have hst : st2 = st1 := readFCW_false_state st1 r2 st2 hr2
        simp [begin, hr1, hr2, hst]
      | true =>
        refine ⟨by simp [begin, hr1, hr2], by simp [begin, hr1],
          by simp [begin, hr1, hr2], ?_, by simp [hr2]⟩
        rintro bs2 - rfl
        have : (begin st true r1 (some bs2)).2.1 = st2 := by
          simp [begin, hr1, hr2]
        rw [this]
        exact readFCW_true_some st1 st2 bs2 hr2

/-- C4 witness: a run in which the ping and both reads succeed — `begin`
succeeds having issued exactly two reads, and the cache holds the second
read's decoded value (9), not the first read's (7). -/
theorem begin_characterization_witness :
    begin ⟨0, 400⟩ true (some [0, 0, 0, 7]) (some [0, 0, 0, 9]) =
      (true, ⟨9, 400⟩, 2) := by
  have h := begin_characterization ⟨0, 400⟩ true (some [0, 0, 0, 7])
    (some [0, 0, 0, 9])
  have h1 : (begin ⟨0, 400⟩ true (some [0, 0, 0, 7]) (some [0, 0, 0, 9])).1 =
      true := h.1.mpr ⟨rfl, by decide, by decide⟩
  have h2 := h.2.2.1 h1
  have h3 := h.2.1
  refine Prod.ext h1 (Prod.ext ?_ ?_)
  · rw [h2]; decide
  · rw [h3]; decide

/-- C1 counterexample: with `maxFrequencyChangePPB = 0.00192` (so
`maxChangeInLSBs = 2.4`), `Pk = 1` and a large negative bias, the clamp binds
and the proportional term `P = 2.4`, which exceeds
`round(maxChangeInLSBs * Pk) = round(2.4) = 2` — refuting the claimed bound
`|P| ≤ round(maxChangeLSB * Pk)`. -/
theorem clampChange_round_bound_counterexample :
    ¬ (|clampChange (requiredChangeInLSBs (-1)) (maxChangeInLSBs (6 / 3125)) * 1| ≤
        ((cround (maxChangeInLSBs (6 / 3125) * 1)) : ℚ)) := by
  have h1 : maxChangeInLSBs (6 / 3125) = 12 / 5 := by
    norm_num [maxChangeInLSBs, kSfeSTP3593LFFreqControlResolution]
  have h2 : requiredChangeInLSBs (-1) = 1250000000 := by
    norm_num [requiredChangeInLSBs, errorSeconds, kSfeSTP3593LFFreqControlResolution]
  rw [h1, h2]
  have h3 : clampChange (1250000000 : ℚ) (12 / 5) = 12 / 5 := by
    norm_num [clampChange]
  have h4 : cround ((12 : ℚ) / 5 * 1) = 2 := by norm_num [cround]
  rw [h3, h4]
  simp only [mul_one]
  rw [abs_of_nonneg (by norm_num : (0 : ℚ) ≤ 12 / 5)]
  norm_num

/-- C1 (amended): for a nonnegative configured `maxFrequencyChangePPB`, the
intermediate `requiredChangeInLSBs` is clamped into
`[-maxChangeInLSBs, +maxChangeInLSBs]`, so the magnitude of the proportional
contribution `P = clampedChange * Pk` never exceeds the exact product
`maxChangeInLSBs * |Pk|` (not its rounding); and `maxFrequencyChangePPB = 0`
forces the clamped change to 0 for every bias. -/
theorem clampChange_rate_limit (maxPPB bias Pk : ℚ) (h : 0 ≤ maxPPB) :
    -(maxChangeInLSBs maxPPB) ≤
      clampChange (requiredChangeInLSBs bias) (maxChangeInLSBs maxPPB) ∧
    clampChange (requiredChangeInLSBs bias) (maxChangeInLSBs maxPPB) ≤
      maxChangeInLSBs maxPPB ∧
    |clampChange (requiredChangeInLSBs bias) (maxChangeInLSBs maxPPB) * Pk| ≤
      maxChangeInLSBs maxPPB * |Pk| ∧
    (maxPPB = 0 →
      clampChange (requiredChangeInLSBs bias) (maxChangeInLSBs maxPPB) = 0) := by
  have hm : 0 ≤ maxChangeInLSBs maxPPB := maxChangeInLSBs_nonneg h
  set m := maxChangeInLSBs maxPPB with hmdef
  set r := requiredChangeInLSBs bias with hrdef
  have hbounds : -m ≤ clampChange r m ∧ clampChange r m ≤ m := by
    unfold clampChange
    split_ifs with h1 h2 h3 <;> constructor <;> linarith
  refine ⟨hbounds.1, hbounds.2, ?_, ?_⟩
  · rw [abs_mul]
    exact mul_le_mul_of_nonneg_right (abs_le.mpr ⟨hbounds.1, hbounds.2⟩)
      (abs_nonneg Pk)
  · intro h0
    have hm0 : m = 0 := by
      rw [hmdef, h0]
      norm_num [maxChangeInLSBs]
    unfold clampChange
    rw [hm0]
    split_ifs with h1 h2 h3 <;> linarith

/-- C1 witness: the rate limit instantiated at `maxPPB = 3`,
`bias = 200.0e-6`, `Pk = 1`. -/
theorem clampChange_rate_limit_witness :
    (0 : ℚ) ≤ 3 ∧
    |clampChange (requiredChangeInLSBs (1 / 5000)) (maxChangeInLSBs 3) * 1| ≤
      maxChangeInLSBs 3 * |(1 : ℚ)| := by
  exact ⟨by norm_num,
    (clampChange_rate_limit 3 (1 / 5000) 1 (by norm_num)).2.2.1⟩

lemma setFreqByBias_statics (st : DriverState) (ss : SteerStatics)
    (bias Pk Ik : ℚ) (writeOk : Bool) :
    (setFrequencyByBiasMillis st ss bias Pk Ik writeOk).2.2 =
      ⟨integratorSeed st ss +
        clampChange (requiredChangeInLSBs bias)
          (maxChangeInLSBs st.maxFrequencyChangePPB) * Ik, true⟩ := rfl

/-- C2: with `maxFrequencyChangePPB = 3.0`, a (first) call
`setFrequencyByBiasMillis(200.0e-6, 1.0, 0.0)` from cached control word `C`
computes `error = -200e-9` s, `requiredChangeInLSBs = -250000`, clamps it to
`-3750` (`maxChangeInLSBs = 3750`), takes `P = -3750`, and on a successful
bus write commits control word `C - 3750`. -/
theorem setFrequencyByBiasMillis_documented_scenario (C : ℕ) (I0 : ℚ)
    (h1 : 3750 ≤ C) (h2 : C ≤ 1000000) :
    errorSeconds (1 / 5000) = -(200 / 10 ^ 9) ∧
    requiredChangeInLSBs (1 / 5000) = -250000 ∧
    maxChangeInLSBs 3 = 3750 ∧
    clampChange (requiredChangeInLSBs (1 / 5000)) (maxChangeInLSBs 3) = -3750 ∧
    setFrequencyByBiasMillis ⟨C, 3⟩ ⟨I0, false⟩ (1 / 5000) 1 0 true =
      (true, ⟨C - 3750, 3⟩, ⟨(C : ℚ), true⟩) := by
  have he : errorSeconds (1 / 5000) = -(200 / 10 ^ 9) := by
    norm_num [errorSeconds]
  have hreq : requiredChangeInLSBs (1 / 5000) = -250000 := by
    norm_num [requiredChangeInLSBs, errorSeconds,
      kSfeSTP3593LFFreqControlResolution]
  have hmax : maxChangeInLSBs 3 = 3750 := by
    norm_num [maxChangeInLSBs, kSfeSTP3593LFFreqControlResolution]
  have hclamp : clampChange (requiredChangeInLSBs (1 / 5000))
      (maxChangeInLSBs 3) = -3750 := by
    rw [hreq, hmax]
    norm_num [clampChange]
  refine ⟨he, hreq, hmax, hclamp, ?_⟩
  have hseed : integratorSeed ⟨C, 3⟩ ⟨I0, false⟩ = (C : ℚ) := by
    simp [integratorSeed]
  have hsum : clampChange (requiredChangeInLSBs (1 / 5000))
        (maxChangeInLSBs 3) * 1 +
      (integratorSeed ⟨C, 3⟩ ⟨I0, false⟩ +
        clampChange (requiredChangeInLSBs (1 / 5000)) (maxChangeInLSBs 3) * 0) =
      ((C - 3750 : ℕ) : ℚ) := by
    rw [hclamp, hseed]
    push_cast [h1]
    ring
  have hI : integratorSeed ⟨C, 3⟩ ⟨I0, false⟩ +
      clampChange (requiredChangeInLSBs (1 / 5000)) (maxChangeInLSBs 3) * 0 =
      (C : ℚ) := by
    rw [hseed]
    ring
  simp only [setFrequencyByBiasMillis]
  rw [hsum, cround_natCast, toUInt32Wrap_natCast _ (by omega), hI]
  refine Prod.ext (setFCW_fst _ _ _) (Prod.ext ?_ rfl)
  rw [setFCW_state_true,
    if_neg (by unfold kSfeSTP3593LFFreqControlMaxValue; omega)]

/-- C2 witness: the documented scenario at `C = 500000`: the committed
control word is `496250 = 500000 - 3750`. -/
theorem setFrequencyByBiasMillis_documented_scenario_witness :
    (3750 ≤ 500000 ∧ 500000 ≤ 1000000) ∧
    setFrequencyByBiasMillis ⟨500000, 3⟩ ⟨0, false⟩ (1 / 5000) 1 0 true =
      (true, ⟨496250, 3⟩, ⟨500000, true⟩) := by
  refine ⟨⟨by norm_num, by norm_num⟩, ?_⟩
  have h := (setFrequencyByBiasMillis_documented_scenario 500000 0
    (by norm_num) (by norm_num)).2.2.2.2
  rw [h]
  norm_num

/-- C3 counterexample: starting fresh with cached control word 0, a first
call with `Pk = 1, Ik = 0` and bias `-1` ms commits control word 500000 while
leaving the integrator at 0; the immediately following call with
`Pk = 0, Ik = 0` then writes `round(integrator) = 0`, moving the control word
from 500000 back to 0 — refuting "calling with Pk = 0, Ik = 0 leaves the
control word unchanged for every bias". -/
theorem zero_gains_freeze_counterexample :
    (setFrequencyByBiasMillis ⟨0, 400⟩ ⟨0, false⟩ (-1) 1 0 true).2.1.frequencyControl
        = 500000 ∧
    (setFrequencyByBiasMillis
        (setFrequencyByBiasMillis ⟨0, 400⟩ ⟨0, false⟩ (-1) 1 0 true).2.1
        (setFrequencyByBiasMillis ⟨0, 400⟩ ⟨0, false⟩ (-1) 1 0 true).2.2
        0 0 0 true).1 = true ∧
    (setFrequencyByBiasMillis
        (setFrequencyByBiasMillis ⟨0, 400⟩ ⟨0, false⟩ (-1) 1 0 true).2.1
        (setFrequencyByBiasMillis ⟨0, 400⟩ ⟨0, false⟩ (-1) 1 0 true).2.2
        0 0 0 true).2.1.frequencyControl = 0 := by
  have h1 : setFrequencyByBiasMillis ⟨0, 400⟩ ⟨0, false⟩ (-1) 1 0 true =
      (true, ⟨500000, 400⟩, ⟨0, true⟩) := by
    norm_num [setFrequencyByBiasMillis, integratorSeed, clampChange,
      requiredChangeInLSBs, errorSeconds, maxChangeInLSBs,
      kSfeSTP3593LFFreqControlResolution, kSfeSTP3593LFFreqControlMaxValue,
      cround, toUInt32Wrap, setFrequencyControlWord]
    rfl
  have h2 : setFrequencyByBiasMillis ⟨500000, 400⟩ ⟨0, true⟩ 0 0 0 true =
      (true, ⟨0, 400⟩, ⟨0, true⟩) := by
    norm_num [setFrequencyByBiasMillis, integratorSeed, clampChange,
      requiredChangeInLSBs, errorSeconds, maxChangeInLSBs,
      kSfeSTP3593LFFreqControlResolution, kSfeSTP3593LFFreqControlMaxValue,
      cround, toUInt32Wrap, setFrequencyControlWord]
  rw [h1]
  exact ⟨rfl, by rw [h2], by rw [h2]⟩

/-- C3 (amended): with `Pk = 0, Ik = 0`, the call writes
`round(integrator)` clamped; the control word is frozen exactly when the
integrator agrees with the cache — in particular on the very first call,
where the integrator is seeded from the cached control word (cache within
range): the call then succeeds, leaves the per-object state unchanged, and
sets the integrator to the cached word, for every bias. -/
theorem setFrequencyByBiasMillis_zero_gains_first_call (st : DriverState)
    (ss : SteerStatics) (bias : ℚ) (h1 : ss.initDone = false)
    (h2 : st.frequencyControl ≤ kSfeSTP3593LFFreqControlMaxValue) :
    setFrequencyByBiasMillis st ss bias 0 0 true =
      (true, st, ⟨(st.frequencyControl : ℚ), true⟩) := by
  have h2' : st.frequencyControl ≤ 1000000 := h2
  have hseed : integratorSeed st ss = (st.frequencyControl : ℚ) := by
    simp [integratorSeed, h1]
  have hsum : clampChange (requiredChangeInLSBs bias)
        (maxChangeInLSBs st.maxFrequencyChangePPB) * 0 +
      (integratorSeed st ss +
        clampChange (requiredChangeInLSBs bias)
          (maxChangeInLSBs st.maxFrequencyChangePPB) * 0) =
      ((st.frequencyControl : ℕ) : ℚ) := by
    rw [hseed]
    ring
  have hI : integratorSeed st ss +
      clampChange (requiredChangeInLSBs bias)
        (maxChangeInLSBs st.maxFrequencyChangePPB) * 0 =
      (st.frequencyControl : ℚ) := by
    rw [hseed]
    ring
  simp only [setFrequencyByBiasMillis]
  rw [hsum, cround_natCast, toUInt32Wrap_natCast _ (by omega), hI]
  refine Prod.ext (setFCW_fst _ _ _) (Prod.ext ?_ rfl)
  rw [setFCW_state_true, if_neg (by omega)]

/-- C3 witness: a first call with zero gains at cache 123 leaves the state
untouched and seeds the integrator with 123. -/
theorem setFrequencyByBiasMillis_zero_gains_first_call_witness :
    setFrequencyByBiasMillis ⟨123, 400⟩ ⟨5, false⟩ 7 0 0 true =
      (true, ⟨123, 400⟩, ⟨123, true⟩) := by
  have h := setFrequencyByBiasMillis_zero_gains_first_call ⟨123, 400⟩
    ⟨5, false⟩ 7 rfl (by norm_num [kSfeSTP3593LFFreqControlMaxValue])
  rw [h]
  norm_num

/-- C9 counterexample: two driver instances A (cache 100) and B (cache 200),
fresh statics. A zero-gain call on A seeds the shared integrator with A's
cache (100); a subsequent zero-gain call on B then writes 100 into B's
device. Without A's call, the same call on B writes 200. So a call on one
instance reads and modifies the integrator state used by the other —
refuting the claimed per-instance ownership. -/
theorem steer_statics_shared_counterexample :
    (steerB (steerA ⟨⟨100, 400⟩, ⟨200, 400⟩, ⟨0, false⟩⟩ 0 0 0 true).2
        0 0 0 true).2.devB.frequencyControl = 100 ∧
    (steerB ⟨⟨100, 400⟩, ⟨200, 400⟩, ⟨0, false⟩⟩ 0 0 0 true).2.devB.frequencyControl
        = 200 := by
  have hA : steerA ⟨⟨100, 400⟩, ⟨200, 400⟩, ⟨0, false⟩⟩ 0 0 0 true =
      (true, ⟨⟨100, 400⟩, ⟨200, 400⟩, ⟨100, true⟩⟩) := by
    norm_num [steerA, setFrequencyByBiasMillis, integratorSeed, clampChange,
      requiredChangeInLSBs, errorSeconds, maxChangeInLSBs,
      kSfeSTP3593LFFreqControlResolution, kSfeSTP3593LFFreqControlMaxValue,
      cround, toUInt32Wrap, setFrequencyControlWord]
    rfl
  have hB1 : steerB ⟨⟨100, 400⟩, ⟨200, 400⟩, ⟨100, true⟩⟩ 0 0 0 true =
      (true, ⟨⟨100, 400⟩, ⟨100, 400⟩, ⟨100, true⟩⟩) := by
    norm_num [steerB, setFrequencyByBiasMillis, integratorSeed, clampChange,
      requiredChangeInLSBs, errorSeconds, maxChangeInLSBs,
      kSfeSTP3593LFFreqControlResolution, kSfeSTP3593LFFreqControlMaxValue,
      cround, toUInt32Wrap, setFrequencyControlWord]
    rfl
  have hB0 : steerB ⟨⟨100, 400⟩, ⟨200, 400⟩, ⟨0, false⟩⟩ 0 0 0 true =
      (true, ⟨⟨100, 400⟩, ⟨200, 400⟩, ⟨200, true⟩⟩) := by
    norm_num [steerB, setFrequencyByBiasMillis, integratorSeed, clampChange,
      requiredChangeInLSBs, errorSeconds, maxChangeInLSBs,
      kSfeSTP3593LFFreqControlResolution, kSfeSTP3593LFFreqControlMaxValue,
      cround, toUInt32Wrap, setFrequencyControlWord]
    rfl
  rw [hA]
  exact ⟨by rw [hB1], by rw [hB0]⟩

/-- C9 (amended): the integrator statics are one shared program-wide cell,
not per-instance state: a call on instance A leaves B's per-object state
untouched but seeds/advances the very statics cell that a subsequent call on
instance B consumes — when the statics are uninitialized, the call on A sets
the shared integrator to A's cached control word plus A's integral advance,
and any following call on B adds its own advance to what A left there. -/
theorem steer_statics_shared (w : TwoDriverWorld) (bias Pk Ik : ℚ)
    (wk : Bool) (h : w.statics.initDone = false) :
    ((steerA w bias Pk Ik wk).2).devB = w.devB ∧
    ((steerA w bias Pk Ik wk).2).statics =
      ⟨(w.devA.frequencyControl : ℚ) +
        clampChange (requiredChangeInLSBs bias)
          (maxChangeInLSBs w.devA.maxFrequencyChangePPB) * Ik, true⟩ ∧
    (∀ bias2 Pk2 Ik2 wk2,
      (steerB (steerA w bias Pk Ik wk).2 bias2 Pk2 Ik2 wk2).2.statics.I =
        (steerA w bias Pk Ik wk).2.statics.I +
          clampChange (requiredChangeInLSBs bias2)
            (maxChangeInLSBs w.devB.maxFrequencyChangePPB) * Ik2) := by
  have hseed : integratorSeed w.devA w.statics =
      (w.devA.frequencyControl : ℚ) := by
    simp [integratorSeed, h]
  refine ⟨rfl, ?_, ?_⟩
  · show (setFrequencyByBiasMillis w.devA w.statics bias Pk Ik wk).2.2 = _
    rw [setFreqByBias_statics, hseed]
  · intro bias2 Pk2 Ik2 wk2
    have e1 : (steerB (steerA w bias Pk Ik wk).2 bias2 Pk2 Ik2 wk2).2.statics =
        (setFrequencyByBiasMillis w.devB
          (setFrequencyByBiasMillis w.devA w.statics bias Pk Ik wk).2.2
          bias2 Pk2 Ik2 wk2).2.2 := rfl
    rw [e1, setFreqByBias_statics]
    have e2 : integratorSeed w.devB
        (setFrequencyByBiasMillis w.devA w.statics bias Pk Ik wk).2.2 =
        (setFrequencyByBiasMillis w.devA w.statics bias Pk Ik wk).2.2.I := by
      rw [setFreqByBias_statics]
      simp [integratorSeed]
    show integratorSeed w.devB
        (setFrequencyByBiasMillis w.devA w.statics bias Pk Ik wk).2.2 +
        clampChange (requiredChangeInLSBs bias2)
          (maxChangeInLSBs w.devB.maxFrequencyChangePPB) * Ik2 = _
    rw [e2]
    rfl

/-- C9 witness: with A's cache at 100 and fresh statics, a zero-gain call on
A leaves B untouched and stores 100 in the shared integrator cell. -/
theorem steer_statics_shared_witness :
    ((steerA ⟨⟨100, 400⟩, ⟨200, 400⟩, ⟨0, false⟩⟩ 0 0 0 true).2).devB =
      ⟨200, 400⟩ ∧
    ((steerA ⟨⟨100, 400⟩, ⟨200, 400⟩, ⟨0, false⟩⟩ 0 0 0 true).2).statics =
      ⟨100, true⟩ := by
  have h := steer_statics_shared ⟨⟨100, 400⟩, ⟨200, 400⟩, ⟨0, false⟩⟩
    0 0 0 true rfl
  refine ⟨h.1, ?_⟩
  rw [h.2.1]
  norm_num

/-- C10: there are inputs on which the PI computation rounds to a negative
target (here `-500000`); embedded with modulo-`2^32` wrap, the conversion to
`uint32_t` produces a value above the maximum, and the clamp in
`setFrequencyControlWord` then writes exactly `1000000`, which is committed. -/
theorem negative_target_written_as_max :
    ∃ (st : DriverState) (ss : SteerStatics) (bias Pk Ik : ℚ),
      cround (clampChange (requiredChangeInLSBs bias)
            (maxChangeInLSBs st.maxFrequencyChangePPB) * Pk +
          (integratorSeed st ss +
            clampChange (requiredChangeInLSBs bias)
              (maxChangeInLSBs st.maxFrequencyChangePPB) * Ik)) < 0 ∧
      toUInt32Wrap (cround (clampChange (requiredChangeInLSBs bias)
            (maxChangeInLSBs st.maxFrequencyChangePPB) * Pk +
          (integratorSeed st ss +
            clampChange (requiredChangeInLSBs bias)
              (maxChangeInLSBs st.maxFrequencyChangePPB) * Ik))) >
        kSfeSTP3593LFFreqControlMaxValue ∧
      (setFrequencyByBiasMillis st ss bias Pk Ik true).1 = true ∧
      (setFrequencyByBiasMillis st ss bias Pk Ik true).2.1.frequencyControl =
        kSfeSTP3593LFFreqControlMaxValue := by
  refine ⟨⟨0, 400⟩, ⟨0, false⟩, 1, 1, 0, ?_⟩
  have hsum : clampChange (requiredChangeInLSBs 1)
        (maxChangeInLSBs ((⟨0, 400⟩ : DriverState).maxFrequencyChangePPB)) * 1 +
      (integratorSeed ⟨0, 400⟩ ⟨0, false⟩ +
        clampChange (requiredChangeInLSBs 1)
          (maxChangeInLSBs ((⟨0, 400⟩ : DriverState).maxFrequencyChangePPB)) * 0) =
      (-500000 : ℚ) := by
    norm_num [integratorSeed, clampChange, requiredChangeInLSBs, errorSeconds,
      maxChangeInLSBs, kSfeSTP3593LFFreqControlResolution]
  have hcr : cround (-500000 : ℚ) = -500000 := by
    norm_num [cround, Int.ceil_neg]
  have hwrap : toUInt32Wrap (-500000) = 4294467296 := by
    simp only [toUInt32Wrap]
    decide
  have hpipe : setFrequencyByBiasMillis ⟨0, 400⟩ ⟨0, false⟩ 1 1 0 true =
      (true, ⟨1000000, 400⟩, ⟨0, true⟩) := by
    simp only [setFrequencyByBiasMillis]
    rw [hsum, hcr, hwrap]
    refine Prod.ext (setFCW_fst _ _ _) (Prod.ext ?_ ?_)
    · rw [setFCW_state_true,
        if_pos (by unfold kSfeSTP3593LFFreqControlMaxValue; omega)]
      rfl
    · simp [integratorSeed]
  refine ⟨by rw [hsum, hcr]; norm_num, by rw [hsum, hcr, hwrap]; decide,
    by rw [hpipe], by rw [hpipe]; rfl⟩
